import Mathlib

/-!
Verification of the `sintrade_bot` core against its natural-language
specification.  The Python source under `src/sintrade_bot/` is shallowly
embedded: every mutable object becomes an explicit state value, every
network interaction is parameterised by an abstract outcome describing what
the dependency did, and Python floats are modelled by rationals.
-/

namespace SinTrade

/-- Python `str.strip()` on a character list. -/
def stripChars (l : List Char) : List Char :=
  ((l.dropWhile Char.isWhitespace).reverse.dropWhile Char.isWhitespace).reverse

/-! ## Content gateway: shared cooldown (circuit-breaker) state

Embeds the mutable fields `AIContentClient._suspend_until` and
`AIContentClient._last_error` of `ai_content.py`.  Wall-clock time
(`time.time()`) is passed in explicitly as `now`. -/

/-- Shared cooldown state of `AIContentClient`: `suspend_until` mirrors
`self._suspend_until`, `last_error` mirrors `self._last_error`. -/
structure GatewayState where
  suspend_until : ℚ
  last_error : String
deriving DecidableEq

/-- Outcome of one HTTP exchange for the plain-text path `_request_text`
(ai_content.py lines 126-165), abstracting the `httpx` transport.
`http_error status extracted_code` covers `response.status_code >= 400`,
with `extracted_code` the result of `_extract_error_code(body)` (possibly
`""`); `ok content` covers a 2xx response whose `_extract_content` result
is `content`. -/
inductive TextOutcome where
  | timeout
  | network_error
  | http_error (status : ℕ) (extracted_code : String)
  | ok (content : String)
deriving DecidableEq

/-- Outcome of one HTTP exchange plus JSON decoding for `_request_json`
(ai_content.py lines 457-511).  The 2xx branch is classified the way the
code classifies it: empty extracted content (`empty_content`), content whose
extracted block fails `json.loads` (`invalid_json`), a parsed value that is
neither an object nor an array (`invalid_json_shape`), or a parsed object
(an array is coerced to an object under the key `quiz`). -/
inductive JsonOutcome where
  | timeout
  | network_error
  | http_error (status : ℕ) (extracted_code : String)
  | ok_empty
  | ok_invalid_json
  | ok_scalar
  | ok_object
deriving DecidableEq

/-- Result of `_request_json`: the post-call cooldown state, whether the
dependency was actually contacted (`made_call = false` means the gate
short-circuited), and whether a parsed JSON object was returned (`payload =
true` corresponds to a non-`None` Python return). -/
structure JsonRequestResult where
  state : GatewayState
  made_call : Bool
  payload : Bool
deriving DecidableEq

/-- Result of `_request_text`: post-call state, whether the dependency was
contacted, and the returned text (`none` mirrors Python `None`). -/
structure TextRequestResult where
  state : GatewayState
  made_call : Bool
  result : Option String
deriving DecidableEq

/-- Cooldown window chosen by the `status_code >= 400` branch shared by
`_request_text` (lines 146-157) and `_request_json` (lines 480-492):
401/403 give 300, 429 gives 1800 for `insufficient_quota` else 120, any
other status gives 60.  `err` is the already-computed last-error code. -/
def http_error_suspension (now : ℚ) (status : ℕ) (err : String) : ℚ :=
  if status = 401 ∨ status = 403 then now + 300
  else if status = 429 then
    if err = "insufficient_quota" then now + 1800 else now + 120
  else now + 60

/-- Error code recorded on an HTTP >= 400 response:
`_extract_error_code(body) or f"http_{status}"`. -/
def http_error_code (status : ℕ) (extracted_code : String) : String :=
  if extracted_code = "" then "http_" ++ toString status else extracted_code

/-- Embedding of `AIContentClient._request_json` (ai_content.py lines
424-511) at the level of the cooldown state.  When `respect_suspend` is set
and `now` is before the suspension window the dependency is not contacted
and `None` is returned; otherwise the call proceeds and the cooldown state
is updated exactly as in the source (note every `_suspend_until` update in
this function is guarded by `respect_suspend`). -/
def request_json (st : GatewayState) (now : ℚ) (respect_suspend : Bool)
    (outcome : JsonOutcome) : JsonRequestResult :=
  if respect_suspend = true ∧ now < st.suspend_until then ⟨st, false, false⟩
  else
    match outcome with
    | .timeout =>
        ⟨⟨if respect_suspend then now + 20 else st.suspend_until, "timeout"⟩, true, false⟩
    | .network_error =>
        ⟨⟨if respect_suspend then now + 60 else st.suspend_until, "network_error"⟩, true, false⟩
    | .http_error status extracted_code =>
        let err := http_error_code status extracted_code
        ⟨⟨if respect_suspend then http_error_suspension now status err else st.suspend_until,
          err⟩, true, false⟩
    | .ok_empty => ⟨⟨st.suspend_until, "empty_content"⟩, true, false⟩
    | .ok_invalid_json => ⟨⟨st.suspend_until, "invalid_json"⟩, true, false⟩
    | .ok_scalar => ⟨⟨st.suspend_until, "invalid_json_shape"⟩, true, false⟩
    | .ok_object => ⟨⟨st.suspend_until, ""⟩, true, true⟩

/-- Embedding of `AIContentClient._request_text` (ai_content.py lines
97-165), used by the public `answer_question` operation.  The source of
this function contains no check of `self._suspend_until`: the dependency is
always contacted.  Its error branches update the cooldown state
unconditionally.  The 2xx branch returns `None` when the extracted content
is the empty string, else the stripped (`str.strip()`) content. -/
def request_text (st : GatewayState) (now : ℚ) (outcome : TextOutcome) :
    TextRequestResult :=
  match outcome with
  | .timeout => ⟨⟨now + 20, "timeout"⟩, true, none⟩
  | .network_error => ⟨⟨now + 60, "network_error"⟩, true, none⟩
  | .http_error status extracted_code =>
      let err := http_error_code status extracted_code
      ⟨⟨http_error_suspension now status err, err⟩, true, none⟩
  | .ok content =>
      if content = "" then ⟨⟨st.suspend_until, "empty_content"⟩, true, none⟩
      else ⟨⟨st.suspend_until, ""⟩, true, some (String.mk (stripChars content.toList))⟩

/-! ## JSON-block extraction (`_extract_json_block`, ai_content.py 550-564) -/

/-- Left bracket and brace characters, written via code points. -/
def lbraceChar : Char := Char.ofNat 123

def rbraceChar : Char := Char.ofNat 125

def lbrackChar : Char := Char.ofNat 91

def rbrackChar : Char := Char.ofNat 93

/-- Python `str.find(c)` (index of first occurrence, `none` for -1). -/
def findChar : List Char → Char → Option ℕ
  | [], _ => none
  | a :: t, c =>
      if a = c then some 0
      else
        match findChar t c with
        | none => none
        | some i => some (i + 1)

/-- Python `str.rfind(c)` (index of last occurrence, `none` for -1). -/
def rfindChar (l : List Char) (c : Char) : Option ℕ :=
  match findChar l.reverse c with
  | none => none
  | some i => some (l.length - 1 - i)

/-- Python slice `l[start : stop]`. -/
def sliceChars (l : List Char) (start stop : ℕ) : List Char :=
  (l.drop start).take (stop - start)

/-- Span `l[find(lc) : rfind(rc) + 1]` when both delimiters occur and the
last right delimiter lies strictly after the first left one (the guard
`start != -1 and end != -1 and end > start` of `_extract_json_block`). -/
def delimitedSpan (l : List Char) (lc rc : Char) : Option (List Char) :=
  match findChar l lc, rfindChar l rc with
  | some start, some stop =>
      if start < stop then some (sliceChars l start (stop + 1)) else none
  | _, _ => none

/-- Embedding of `_extract_json_block` (ai_content.py lines 550-564): the
stripped text is used as-is when bounded by braces or by brackets;
otherwise the first-brace to last-brace span is sliced out; otherwise the
first-bracket to last-bracket span; otherwise the literal two-character
empty-object text. -/
def extract_json_block (text : String) : String :=
  let stripped := stripChars text.toList
  if stripped.head? = some lbraceChar ∧ stripped.getLast? = some rbraceChar then
    String.mk stripped
  else if stripped.head? = some lbrackChar ∧ stripped.getLast? = some rbrackChar then
    String.mk stripped
  else
    match delimitedSpan stripped lbraceChar rbraceChar with
    | some span => String.mk span
    | none =>
        match delimitedSpan stripped lbrackChar rbrackChar with
        | some span => String.mk span
        | none => String.mk [lbraceChar, rbraceChar]

/-! ## Data model (models.py)

Python dicts with ordered insertion are embedded as association lists,
Python sets as `Finset`, floats as `ℚ`, `Optional[x]` as `Option`. -/

/-- Embedding of `QuizQuestion` (models.py): `options` is the dict keyed
`A..D` kept in insertion order. -/
structure QuizQuestion where
  prompt : String
  options : List (String × String)
  answer : String
  explanation : String
deriving DecidableEq, Inhabited

/-- Embedding of `Lesson` (models.py); the source field `example` is named
`example_text` here because `example` is reserved in Lean. -/
structure Lesson where
  lesson_id : String
  level : String
  title : String
  objective : String
  bullet_points : List String
  example_text : String
  quiz : List QuizQuestion
  premium_only : Bool
deriving DecidableEq, Inhabited

/-- Embedding of `QuizState` (models.py). -/
structure QuizState where
  lesson_id : String
  questions : List QuizQuestion
  current_index : ℕ
  score : ℕ
  is_dynamic : Bool
  level : String
deriving DecidableEq

/-- Embedding of `SimulationState` (models.py): prices are rationals, the
stage enum is the source's stage string. -/
structure SimulationState where
  symbol : String
  entry : ℚ
  support : ℚ
  resistance : ℚ
  context : String
  stage : String
  direction : Option String
  stop_loss : Option ℚ
  take_profit : Option ℚ
deriving DecidableEq

/-- Embedding of `DailyChallengeState` (models.py). -/
structure DailyChallengeState where
  prompt : String
  expected_keywords : List String
deriving DecidableEq

/-- Embedding of `UserSession` (models.py); `quiz_variant_history` is the
dict from lesson id to the set of served signatures. -/
structure UserSession where
  user_id : ℕ
  level : String
  access : String
  focus : String
  language : String
  assistant_mode : Bool
  completed_lessons : Finset String
  quiz_variant_history : List (String × Finset String)
  ai_recent_lesson_titles : List String
  ai_recent_quiz_prompts : List String
  ai_lessons_completed : ℕ
  ai_simulations_completed : ℕ
  ai_challenges_completed : ℕ
  pending_lesson : Option Lesson
  quiz_state : Option QuizState
  simulation_state : Option SimulationState
  daily_challenge_state : Option DailyChallengeState
deriving DecidableEq

/-- Default session as built by the session store (session_store.py wraps
`UserSession(user_id=...)` with the dataclass defaults). -/
def base_session : UserSession :=
  ⟨0, "beginner", "free", "both", "ar", false, ∅, [], [], [], 0, 0, 0,
   none, none, none, none⟩

/-- Concrete lesson value used by closed example theorems. -/
def sample_lesson : Lesson :=
  ⟨"L1", "beginner", "t", "o", ["b1", "b2", "b3", "b4"], "e", [], false⟩

/-! ## Session access normalization (handlers.py) -/

/-- Embedding of the downgrade performed by `_get_session` (handlers.py
lines 147-154) on every incoming event: an access value of `premium` is
forced back to `free` before any handler sees the session. -/
def get_session_normalize (s : UserSession) : UserSession :=
  if s.access = "premium" then {s with access := "free"} else s

/-- Embedding of `_set_access_value` (handlers.py lines 690-700): an
invalid value changes nothing (`false`), a `premium` request stores `free`,
a `free` request stores `free`. -/
def set_access_value (s : UserSession) (access : String) : UserSession × Bool :=
  if ¬(access = "free" ∨ access = "premium") then (s, false)
  else if access = "premium" then ({s with access := "free"}, true)
  else ({s with access := access}, true)

/-! ## Lesson-command gate (handlers.py `lesson_command`) -/

/-- Embedding of `_sync_ai_curriculum_level` (handlers.py lines 272-280). -/
def sync_ai_curriculum_level (s : UserSession) : UserSession :=
  if 75 ≤ s.ai_lessons_completed then {s with level := "professional"}
  else if 50 ≤ s.ai_lessons_completed then {s with level := "advanced"}
  else if 25 ≤ s.ai_lessons_completed then {s with level := "intermediate"}
  else {s with level := "beginner"}

/-- Early outcomes of `lesson_command`: refusal because a lesson is already
pending, refusal because a quiz is active, or fall-through to the
lesson-producing part of the handler. -/
inductive LessonGateOutcome where
  | refused_pending
  | refused_quiz
  | proceed
deriving DecidableEq

/-- Embedding of the entry portion of `lesson_command` (handlers.py lines
828-848), up to and including its two refusal checks.  The source first
sets `session.assistant_mode = False`, then calls
`_sync_ai_curriculum_level(session)`, and only then tests
`session.pending_lesson` and `session.quiz_state`. -/
def lesson_command_gate (s : UserSession) : UserSession × LessonGateOutcome :=
  let s1 := {s with assistant_mode := false}
  let s2 := sync_ai_curriculum_level s1
  if s2.pending_lesson.isSome then (s2, .refused_pending)
  else if s2.quiz_state.isSome then (s2, .refused_quiz)
  else (s2, .proceed)

/-! ## Simulation wizard (handlers.py) -/

/-- Risk/reward classification implied by the three `rr` branches of
`_build_simulation_feedback`. -/
inductive RRQuality where
  | poor
  | acceptable
  | strong
deriving DecidableEq

/-- Structured content of the feedback block built by
`_build_simulation_feedback` (handlers.py lines 1674-1711): the computed
distances and ratio, the `rr` quality branch taken, whether the
risk-percent warning line is emitted, and whether each structural-stop
warning line is emitted. -/
structure SimFeedback where
  risk_distance : ℚ
  reward_distance : ℚ
  rr : ℚ
  quality : RRQuality
  oversized : Bool
  weak_stop_long : Bool
  weak_stop_short : Bool
deriving DecidableEq

/-- Embedding of `_build_simulation_feedback` (handlers.py lines
1674-1711).  `none` is the early-error branch taken when direction, stop
or take-profit is missing. -/
def build_simulation_feedback (state : SimulationState) (risk_percent : ℚ) :
    Option SimFeedback :=
  match state.direction, state.stop_loss, state.take_profit with
  | some direction, some stop_loss, some take_profit =>
      let risk_distance := |state.entry - stop_loss|
      let reward_distance := |take_profit - state.entry|
      let rr := if risk_distance = 0 then 0 else reward_distance / risk_distance
      some
        { risk_distance := risk_distance
          reward_distance := reward_distance
          rr := rr
          quality :=
            if rr < 3 / 2 then .poor else if rr < 2 then .acceptable else .strong
          oversized := decide (2 < risk_percent)
          weak_stop_long := decide (direction = "long" ∧ state.support < stop_loss)
          weak_stop_short := decide (direction = "short" ∧ stop_loss < state.resistance) }
  | _, _, _ => none

/-- Observations `_handle_simulation_answer` makes of the free-text input:
whether `"long"` / `"short"` occur in the lowered text, and the value of
`_extract_number(text)`. -/
structure SimInput where
  has_long : Bool
  has_short : Bool
  number : Option ℚ
deriving DecidableEq

/-- Result tag for one simulation-wizard step: the input was rejected (the
same stage is re-prompted), the wizard advanced a stage, the wizard
completed (stage 4 accepted, feedback computed, the session drops the
state), or the stage string matched no branch. -/
inductive SimStepResult where
  | rejected
  | advanced
  | completed (feedback : Option SimFeedback)
  | ignored
deriving DecidableEq

/-- Embedding of `_set_simulation_direction` (handlers.py lines 1590-1609)
for an existing simulation state. -/
def set_simulation_direction (state : SimulationState) (direction : String) :
    SimulationState × SimStepResult :=
  if state.stage ≠ "direction" then (state, .ignored)
  else if ¬(direction = "long" ∨ direction = "short") then (state, .rejected)
  else ({state with direction := some direction, stage := "stop_loss"}, .advanced)

/-- Embedding of `_handle_simulation_answer` (handlers.py lines 1612-1671)
for an existing simulation state.  Each rejection branch of the source
replies with an error message and returns without touching the state. -/
def handle_simulation_answer (state : SimulationState) (input : SimInput) :
    SimulationState × SimStepResult :=
  if state.stage = "direction" then
    if input.has_long then set_simulation_direction state "long"
    else if input.has_short then set_simulation_direction state "short"
    else (state, .rejected)
  else if state.stage = "stop_loss" then
    match input.number with
    | none => (state, .rejected)
    | some value =>
        if state.direction = some "long" ∧ state.entry ≤ value then (state, .rejected)
        else if state.direction = some "short" ∧ value ≤ state.entry then (state, .rejected)
        else ({state with stop_loss := some value, stage := "take_profit"}, .advanced)
  else if state.stage = "take_profit" then
    match input.number with
    | none => (state, .rejected)
    | some value =>
        if state.direction = some "long" ∧ value ≤ state.entry then (state, .rejected)
        else if state.direction = some "short" ∧ state.entry ≤ value then (state, .rejected)
        else ({state with take_profit := some value, stage := "risk_percent"}, .advanced)
  else if state.stage = "risk_percent" then
    match input.number with
    | none => (state, .rejected)
    | some risk_percent =>
        if risk_percent ≤ 0 ∨ 100 < risk_percent then (state, .rejected)
        else (state, .completed (build_simulation_feedback state risk_percent))
  else (state, .ignored)

/-! ## Daily-challenge evaluation (handlers.py `_handle_daily_challenge_answer`) -/

/-- Python substring test `needle in haystack` on character lists. -/
def substring_in (needle : List Char) : List Char → Bool
  | [] => needle.isEmpty
  | c :: rest => needle.isPrefixOf (c :: rest) || substring_in needle rest

/-- Word scan behind `len(text.split())`: counts maximal non-whitespace
runs; `in_word` says whether the previous character was inside a word. -/
def count_words : List Char → Bool → ℕ
  | [], _ => 0
  | c :: rest, in_word =>
      if c.isWhitespace then count_words rest false
      else (if in_word then 0 else 1) + count_words rest true

/-- Python `len(text.split())`: whitespace-separated word count. -/
def word_count (text : String) : ℕ :=
  count_words text.toList false

/-- Embedding of the hit counter of `_handle_daily_challenge_answer`
(handlers.py line 1728): `sum(1 for keyword in expected_keywords if
keyword in lowered)` where `lowered = text.lower()`.  Note the keyword is
compared verbatim; only the reply is lowercased. -/
def hit_count (keywords : List String) (lowered : List Char) : ℕ :=
  (keywords.filter (fun k => substring_in k.toList lowered)).length

/-- Definition following the specification's words, for comparison only: a
keyword scores when it occurs as a case-insensitive substring of the reply,
i.e. both sides lowercased. -/
def ci_hit_count_spec (keywords : List String) (text : String) : ℕ :=
  (keywords.filter (fun k =>
    substring_in (k.toList.map Char.toLower) (text.toList.map Char.toLower))).length

/-- Feedback class picked by the three hit-count branches. -/
inductive ChallengeFeedback where
  | strong
  | adequate
  | generic
deriving DecidableEq

/-- Outcome of `_handle_daily_challenge_answer`: no active challenge, the
reply failed the 8-word gate (state kept), or the reply was scored (state
cleared). -/
inductive ChallengeOutcome where
  | inactive
  | too_short
  | scored (feedback : ChallengeFeedback)
deriving DecidableEq

/-- Embedding of `_handle_daily_challenge_answer` (handlers.py lines
1714-1754) at the session level. -/
def daily_challenge_step (s : UserSession) (text : String) :
    UserSession × ChallengeOutcome :=
  match s.daily_challenge_state with
  | none => (s, .inactive)
  | some challenge =>
      if word_count text < 8 then (s, .too_short)
      else
        let lowered := text.toList.map Char.toLower
        let hits := hit_count challenge.expected_keywords lowered
        let feedback :=
          if 3 ≤ hits then ChallengeFeedback.strong
          else if hits = 2 then ChallengeFeedback.adequate
          else ChallengeFeedback.generic
        ({s with
            ai_challenges_completed := s.ai_challenges_completed + 1,
            daily_challenge_state := none},
         .scored feedback)

/-! ## Quiz variant generator (quiz_generator.py)

Randomness (`random.choice`, `random.randint`, `random.randrange`,
`random.shuffle`) is abstracted by an oracle supplying one choice per
consulted point; every theorem quantifies over all oracles. -/

/-- The fixed option keys `OPTION_KEYS = ("A", "B", "C", "D")`. -/
def OPTION_KEYS : List String := ["A", "B", "C", "D"]

/-- Embedding of `_normalize_prompt` (quiz_generator.py lines 151-152):
strip, lowercase and collapse every whitespace run to one space.  Modelled
by lowercasing, splitting on whitespace, dropping empty pieces and joining
with single spaces, which yields the same string. -/
def normalize_prompt (text : String) : String :=
  String.intercalate " "
    (((text.toLower).split Char.isWhitespace).filter (fun t => t ≠ ""))

/-- Case-insensitive prefix removal; `some rest` when `p` (lowercased) is a
prefix of `s` (lowercased), with `rest` the remainder. -/
def drop_prefix_ci : List Char → List Char → Option (List Char)
  | rest, [] => some rest
  | [], _ :: _ => none
  | c :: cs, q :: qs =>
      if c.toLower = q.toLower then drop_prefix_ci cs qs else none

/-- Match of the anchored pattern `^\s*<label>\s*:\s*` of
`_compact_scenario`, returning the text after the pattern, or `none` when
the pattern does not match (in which case `re.sub` leaves the text
unchanged). -/
def strip_labeled_prefix (l : List Char) (label : List Char) : Option (List Char) :=
  match drop_prefix_ci (l.dropWhile Char.isWhitespace) label with
  | none => none
  | some r =>
      match r.dropWhile Char.isWhitespace with
      | c :: r2 => if c = ':' then some (r2.dropWhile Char.isWhitespace) else none
      | [] => none

/-- Embedding of `_compact_scenario` (quiz_generator.py lines 98-102):
strip an `Example:` / `مثال:` label (case-insensitive), then truncate texts
longer than 120 characters to 117 right-stripped characters plus an
ellipsis. -/
def compact_scenario (example_text : String) : String :=
  let stripped := stripChars example_text.toList
  let clean :=
    match strip_labeled_prefix stripped "example".toList with
    | some r => r
    | none =>
        match strip_labeled_prefix stripped "مثال".toList with
        | some r => r
        | none => stripped
  if clean.length ≤ 120 then String.mk clean
  else String.mk (((clean.take 117).reverse.dropWhile Char.isWhitespace).reverse) ++ "..."

/-- Embedding of `_format_prompt` together with the seven entries of
`PROMPT_STYLES` (quiz_generator.py lines 9-17 and 92-95); `style_index` is
always below 7 at the call sites. -/
def format_prompt (base_prompt : String) (lesson : Lesson) (style_index : ℕ) : String :=
  match style_index with
  | 0 => base_prompt
  | 1 => "اختبار معرفة: " ++ base_prompt
  | 2 => "فحص المخاطرة أولًا: " ++ base_prompt
  | 3 => "اختبار التنفيذ: " ++ base_prompt
  | 4 => "مراجعة العملية: " ++ base_prompt
  | 5 => "تركيز على السيناريو: " ++ compact_scenario lesson.example_text ++ " " ++ base_prompt
  | _ => "قبل تنفيذ الصفقة أجب: " ++ base_prompt

/-- Totalization of `random.shuffle(indices)`: an oracle answer that is a
permutation of `range n` is used as-is, anything else is replaced by the
identity order (Python's shuffle always yields a permutation, so the
replaced case is unreachable under the real generator). -/
def valid_perm (n : ℕ) (l : List ℕ) : List ℕ :=
  if l.Perm (List.range n) then l else List.range n

/-- Embedding of `_shuffle_options_with_order` (quiz_generator.py lines
110-131): rebuild the option dict by writing `items[idx]` values under the
keys `A..D` in shuffled slot order, tracking which slot now carries the
text of the previously-correct answer (`new_answer` starts at `"A"`). -/
def shuffle_options_with_order (question : QuizQuestion) (rand_indices : List ℕ) :
    QuizQuestion × List ℕ :=
  let items := question.options
  let indices := valid_perm items.length rand_indices
  let correct_text := (items.lookup question.answer.toUpper).getD ""
  let res := (OPTION_KEYS.zip indices).foldl
    (fun (acc : List (String × String) × String) p =>
      let option_text := ((items.get? p.2).map Prod.snd).getD ""
      (acc.1 ++ [(p.1, option_text)],
       if option_text = correct_text then p.1 else acc.2))
    ([], "A")
  ({ prompt := question.prompt
     options := res.1
     answer := res.2
     explanation := question.explanation }, indices)

/-- Embedding of `_shuffle_options` (quiz_generator.py lines 105-107). -/
def shuffle_options (question : QuizQuestion) (rand_indices : List ℕ) : QuizQuestion :=
  (shuffle_options_with_order question rand_indices).1

/-- Embedding of `_signature_from_parts` (quiz_generator.py lines 134-142). -/
def signature_from_parts (lesson_id base_prompt : String) (style_index : ℕ)
    (option_order : List ℕ) : String :=
  lesson_id ++ "|" ++ normalize_prompt base_prompt ++ "|s" ++ toString style_index ++
    "|o" ++ String.intercalate "," (option_order.map toString)

/-- Embedding of `_signature_from_question` (quiz_generator.py lines
145-148). -/
def signature_from_question (lesson_id : String) (question : QuizQuestion) : String :=
  lesson_id ++ "|" ++ normalize_prompt question.prompt ++ "|" ++
    String.intercalate "|" (OPTION_KEYS.map (fun k => (question.options.lookup k).getD "")) ++
    "|" ++ question.answer

/-- Oracle abstracting the `random` module for one call of
`build_random_quiz_for_lesson`: the `randint` draw for the target size, and
per-attempt draws for the base question (`random.choice`), the style
(`random.randrange(7)`) and the option shuffle; `fallback_perm` feeds the
shuffles of the deterministic final fallback. -/
structure QuizOracle where
  target_pick : ℕ
  base_pick : ℕ → ℕ
  style : ℕ → ℕ
  perm : ℕ → List ℕ
  fallback_perm : ℕ → List ℕ

/-- Embedding of `_build_variant_question` (quiz_generator.py lines
77-89), with the two random draws taken from the oracle at the current
attempt counter. -/
def build_variant_question (o : QuizOracle) (attempt : ℕ) (base : QuizQuestion)
    (lesson : Lesson) : QuizQuestion × String :=
  let style_index := o.style attempt % 7
  let prompt := format_prompt base.prompt lesson style_index
  let sh := shuffle_options_with_order base (o.perm attempt)
  let signature := signature_from_parts lesson.lesson_id base.prompt style_index sh.2
  ({ prompt := prompt
     options := sh.1.options
     answer := sh.1.answer
     explanation := base.explanation }, signature)

/-- Mutable locals of the two generation loops of
`build_random_quiz_for_lesson`: the accumulated variants (paired with
their signatures), the `generated_signatures` set, the
`used_base_prompts` set and the attempt counter. -/
structure GenLoopState where
  generated : List (QuizQuestion × String)
  generated_signatures : Finset String
  used_base_prompts : Finset String
  attempts : ℕ

/-- Python `random.choice(lesson.quiz)` at a given attempt, via the
oracle (reduced modulo the bank size, which is positive at every call). -/
def quiz_attempt_base (o : QuizOracle) (lesson : Lesson) (attempt : ℕ) : QuizQuestion :=
  lesson.quiz.getD (o.base_pick attempt % lesson.quiz.length) default

/-- First generation loop of `build_random_quiz_for_lesson`
(quiz_generator.py lines 42-56): while the target is not reached and the
attempt budget (fuel) remains, draw a base question, skip it when its
normalized prompt was already used while distinct bases remain, build a
variant, skip it when its signature is in the user's history or in this
call's accumulated set, else keep it. -/
def phase1 (o : QuizOracle) (lesson : Lesson) (history : Finset String) (target : ℕ) :
    ℕ → GenLoopState → GenLoopState
  | 0, s => s
  | fuel + 1, s =>
      if target ≤ s.generated.length then s
      else
        let a := s.attempts
        let base := quiz_attempt_base o lesson a
        let base_key := normalize_prompt base.prompt
        if s.used_base_prompts.card < lesson.quiz.length ∧ base_key ∈ s.used_base_prompts then
          phase1 o lesson history target fuel {s with attempts := a + 1}
        else
          let vs := build_variant_question o a base lesson
          if vs.2 ∈ history ∨ vs.2 ∈ s.generated_signatures then
            phase1 o lesson history target fuel {s with attempts := a + 1}
          else
            phase1 o lesson history target fuel
              { generated := s.generated ++ [vs]
                generated_signatures := insert vs.2 s.generated_signatures
                used_base_prompts := insert base_key s.used_base_prompts
                attempts := a + 1 }

/-- Second generation loop (quiz_generator.py lines 58-67), run after the
history has been cleared: only this call's accumulated signatures are
checked. -/
def phase2 (o : QuizOracle) (lesson : Lesson) (target : ℕ) :
    ℕ → GenLoopState → GenLoopState
  | 0, s => s
  | fuel + 1, s =>
      if target ≤ s.generated.length then s
      else
        let a := s.attempts
        let base := quiz_attempt_base o lesson a
        let vs := build_variant_question o a base lesson
        if vs.2 ∈ s.generated_signatures then
          phase2 o lesson target fuel {s with attempts := a + 1}
        else
          phase2 o lesson target fuel
            { s with
                generated := s.generated ++ [vs]
                generated_signatures := insert vs.2 s.generated_signatures
                attempts := a + 1 }

/-- Result of one `build_random_quiz_for_lesson` call: the returned
variants (paired with the signature each one contributed), the final
`generated_signatures` set, the lesson's history after the call, and
whether the history-clearing branch ran.  The source returns
`questions.map Prod.fst` and stores `new_history` in the session. -/
structure QuizGenResult where
  questions : List (QuizQuestion × String)
  emitted_signatures : Finset String
  new_history : Finset String
  cleared : Bool

/-- Target size draw `random.randint(min_questions, upper_bound)` with
`upper_bound = max(min_questions, min(max_questions, 3))`
(quiz_generator.py lines 33-34). -/
def brq_target (o : QuizOracle) (min_questions max_questions : ℕ) : ℕ :=
  min_questions + o.target_pick % (max min_questions (min max_questions 3) - min_questions + 1)

/-- Deterministic final fallback (quiz_generator.py line 70): one shuffled
variant per bank question. -/
def brq_fallback (lesson : Lesson) (o : QuizOracle) : List QuizQuestion :=
  lesson.quiz.mapIdx (fun i q => shuffle_options q (o.fallback_perm i))

/-- Variants and signature set after the empty-result fallback check
(quiz_generator.py lines 69-71). -/
def brq_final (lesson : Lesson) (o : QuizOracle) (s2 : GenLoopState) :
    List (QuizQuestion × String) × Finset String :=
  if s2.generated = [] then
    let shuffled := brq_fallback lesson o
    (shuffled.map (fun q => (q, signature_from_question lesson.lesson_id q)),
     (shuffled.map (fun q => signature_from_question lesson.lesson_id q)).toFinset)
  else (s2.generated, s2.generated_signatures)

/-- Loop state after the first generation loop: 300 attempts, starting
from an empty accumulator. -/
def brq_s1 (lesson : Lesson) (history : Finset String) (o : QuizOracle)
    (min_questions max_questions : ℕ) : GenLoopState :=
  phase1 o lesson history (brq_target o min_questions max_questions) 300 ⟨[], ∅, ∅, 0⟩

/-- Loop state after the conditional second loop (quiz_generator.py lines
58-67): it runs only when the first loop fell short of the target, with
the attempt budget doubled to 600 (the counter keeps running). -/
def brq_s2 (lesson : Lesson) (history : Finset String) (o : QuizOracle)
    (min_questions max_questions : ℕ) : GenLoopState :=
  let target := brq_target o min_questions max_questions
  let s1 := brq_s1 lesson history o min_questions max_questions
  if s1.generated.length < target then phase2 o lesson target (600 - s1.attempts) s1
  else s1

/-- Embedding of `build_random_quiz_for_lesson` (quiz_generator.py lines
22-74).  `history` is the per-user, per-lesson signature set
`session.quiz_variant_history[lesson.lesson_id]`; the first loop gets 300
attempts, and when it falls short the history is cleared (`cleared`) and
the second loop runs; if nothing was generated at all, the deterministic
per-bank fallback is used; finally all emitted signatures are added to the
(possibly cleared) history and the first `target` variants are returned. -/
def build_random_quiz_for_lesson (lesson : Lesson) (history : Finset String)
    (o : QuizOracle) (min_questions max_questions : ℕ) : QuizGenResult :=
  if lesson.quiz = [] then ⟨[], ∅, history, false⟩
  else
    let target := brq_target o min_questions max_questions
    let s1 := brq_s1 lesson history o min_questions max_questions
    let fin := brq_final lesson o (brq_s2 lesson history o min_questions max_questions)
    ⟨fin.1.take target, fin.2,
     (if s1.generated.length < target then (∅ : Finset String) else history) ∪ fin.2,
     decide (s1.generated.length < target)⟩

/-! ## Quiz-pack assembly (ai_content.py `generate_lesson_quiz_pack`) -/

/-- Built-in fallback quiz bank `_fallback_quiz` (ai_content.py lines
778-827). -/
def fallback_quiz (language : String) : List QuizQuestion :=
  if language = "en" then
    [ { prompt := "What must be defined before any entry?"
        options :=
          [("A", "Invalidation point and risk limit"), ("B", "Guaranteed outcome"),
           ("C", "Maximum leverage"), ("D", "A social media signal")]
        answer := "A"
        explanation := "Every trade needs invalidation and controlled risk." },
      { prompt := "Which mindset is more professional?"
        options :=
          [("A", "Win every trade"), ("B", "Process consistency over short-term outcomes"),
           ("C", "Double risk after a loss"), ("D", "Enter every opportunity")]
        answer := "B"
        explanation := "Professional growth comes from repeatable process quality." } ]
  else
    [ { prompt := "ما الذي يجب تحديده قبل أي دخول؟"
        options :=
          [("A", "نقطة الإبطال وحد المخاطرة"), ("B", "نتيجة مضمونة"),
           ("C", "أعلى رافعة ممكنة"), ("D", "إشارة من مواقع التواصل")]
        answer := "A"
        explanation := "كل صفقة تحتاج نقطة إبطال ومخاطرة منضبطة." },
      { prompt := "أي عقلية هي الأكثر احترافية؟"
        options :=
          [("A", "الربح في كل صفقة"), ("B", "ثبات العملية أهم من النتائج القصيرة"),
           ("C", "مضاعفة المخاطرة بعد الخسارة"), ("D", "الدخول في كل فرصة")]
        answer := "B"
        explanation := "النمو الاحترافي يأتي من جودة عملية قابلة للتكرار." } ]

/-- Padding loop of `_ensure_quiz_count` (ai_content.py lines 744-759):
each iteration appends the next cycled fallback question with the
1-based position appended to its prompt.  The fuel equals the number of
iterations the Python `while` performs (`count - len(quiz)`). -/
def pad_quiz_loop (seed : List QuizQuestion) : ℕ → List QuizQuestion → ℕ → List QuizQuestion
  | 0, padded, _ => padded
  | n + 1, padded, index =>
      match seed.get? (index % seed.length) with
      | none => padded
      | some base =>
          pad_quiz_loop seed n
            (padded ++
              [{ prompt := base.prompt ++ " (" ++ toString (padded.length + 1) ++ ")"
                 options := base.options
                 answer := base.answer
                 explanation := base.explanation }])
            (index + 1)

/-- Embedding of `_ensure_quiz_count` (ai_content.py lines 738-759);
`count` is a natural number, so the source's `count <= 0` early return is
the `count = 0` case. -/
def ensure_quiz_count (quiz : List QuizQuestion) (count : ℕ) (language : String) :
    List QuizQuestion :=
  if count = 0 then []
  else if count ≤ quiz.length then quiz.take count
  else pad_quiz_loop (fallback_quiz language) (count - quiz.length) quiz 0

/-- Concatenated chunk results of `generate_lesson_quiz_pack` (ai_content.py
lines 320-325): chunk `i` contributes its parsed questions truncated to
`min(chunk_size, quiz_count - i * chunk_size)`, merged in chunk order.
`chunk_results i` abstracts `_parse_quiz(data.get("quiz"), lang)` for
chunk `i` (the empty list when the chunk request failed). -/
def merged_chunks (chunk_results : ℕ → List QuizQuestion) (quiz_count : ℕ) :
    List QuizQuestion :=
  let chunk_size := 25
  let total_chunks := (quiz_count + chunk_size - 1) / chunk_size
  (List.range total_chunks).flatMap
    (fun i => (chunk_results i).take (min chunk_size (quiz_count - i * chunk_size)))

/-- Embedding of `generate_lesson_quiz_pack` (ai_content.py lines 235-326)
as a function of the upstream chunk results. -/
def generate_lesson_quiz_pack (chunk_results : ℕ → List QuizQuestion)
    (quiz_count : ℕ) (language : String) : List QuizQuestion :=
  if quiz_count = 0 then []
  else ensure_quiz_count (merged_chunks chunk_results quiz_count) quiz_count language


/-! ## Concrete values used by closed example theorems -/

/-- Lesson with a one-question bank, for quiz-generator witnesses. -/
def sample_bank_lesson : Lesson :=
  ⟨"L2", "beginner", "t", "o", ["b1", "b2", "b3", "b4"],
   "Example: watch the support level",
   [⟨"What first?", [("A", "risk"), ("B", "hope"), ("C", "luck"), ("D", "tips")],
     "A", "because"⟩],
   false⟩

/-- Degenerate randomness oracle (always answers 0 / the empty list). -/
def sample_oracle : QuizOracle :=
  ⟨0, fun _ => 0, fun _ => 0, fun _ => [], fun _ => []⟩

/-- Session with only a pending lesson and assistant mode on. -/
def pending_session : UserSession :=
  {base_session with assistant_mode := true, pending_lesson := some sample_lesson}

/-- Session with an active daily challenge whose first keyword carries an
uppercase letter. -/
def challenge_session : UserSession :=
  {base_session with
     daily_challenge_state := some ⟨"p", ["RISK", "entry", "exit", "bias"]⟩}

/-- Completed stage-4 simulation state: entry 100, long, stop 95, target
110, support 96, resistance 110. -/
def sample_sim_state : SimulationState :=
  ⟨"BTCDZD", 100, 96, 110, "ctx", "risk_percent", some "long", some 95, some 110⟩

/-- Stage-2 (stop-loss) simulation state used for rejection witnesses. -/
def stop_stage_sim_state : SimulationState :=
  ⟨"BTCDZD", 100, 96, 110, "ctx", "stop_loss", some "long", none, none⟩

/-! ## Theorems -/

/-- C5: a quiz-pack chunk fetch (`_fetch_chunk` calls `_request_json` with
`respect_suspend=False`) always proceeds to the dependency — even while the
suspension window is active — and no outcome of the call (timeout, network
error, any HTTP error status, or any 2xx classification) changes
`suspend_until`. -/
theorem chunk_fetch_ignores_cooldown (st : GatewayState) (now : ℚ)
    (outcome : JsonOutcome) :
    (request_json st now false outcome).made_call = true ∧
    (request_json st now false outcome).state.suspend_until = st.suspend_until := by
  cases outcome <;> simp [request_json]

/-- C1 (counterexample): the claim says every public operation except a
quiz-pack chunk fetch short-circuits without a network call while `now`
is before the suspension window.  The public `answer_question` operation
goes through `_request_text`, which contains no suspension check: here at
`now = 50` with `suspend_until = 100` the dependency is still contacted. -/
theorem request_text_suspended_still_calls :
    (50 : ℚ) < (100 : ℚ) ∧
    (request_text ⟨100, "quota_exceeded"⟩ 50 .timeout).made_call = true :=
  ⟨by norm_num, rfl⟩

/-- C1 (amended): an HTTP 429 response with extracted code
`insufficient_quota` (processed while not suspended) sets the shared
suspension window to 1800 from the current time, on both request paths;
and every gated JSON-mode request (`respect_suspend=True`, i.e. every
public operation except quiz-pack chunk fetches and the plain-text Q&A
path) issued while the current time is before the suspension window
returns unavailable without contacting the dependency. -/
theorem cooldown_gate_amended (st : GatewayState) (now : ℚ) (outcome : JsonOutcome)
    (st2 : GatewayState) (now2 : ℚ)
    (hsusp : now < st.suspend_until) (hpast : ¬ now2 < st2.suspend_until) :
    request_json st now true outcome = ⟨st, false, false⟩ ∧
    (request_json st2 now2 true (.http_error 429 "insufficient_quota")).state =
      ⟨now2 + 1800, "insufficient_quota"⟩ ∧
    (request_text st2 now2 (.http_error 429 "insufficient_quota")).state =
      ⟨now2 + 1800, "insufficient_quota"⟩ := by
  refine ⟨?_, ?_, ?_⟩
  · unfold request_json
    rw [if_pos ⟨rfl, hsusp⟩]
  · unfold request_json
    rw [if_neg (by simp [hpast])]
    simp [http_error_code, http_error_suspension]
  · unfold request_text
    simp [http_error_code, http_error_suspension]

/-- C1 (witness). -/
theorem cooldown_gate_amended_witness :
    request_json ⟨100, ""⟩ 50 true .timeout = ⟨⟨100, ""⟩, false, false⟩ ∧
    (request_json ⟨3, ""⟩ 7 true (.http_error 429 "insufficient_quota")).state =
      ⟨7 + 1800, "insufficient_quota"⟩ ∧
    (request_text ⟨3, ""⟩ 7 (.http_error 429 "insufficient_quota")).state =
      ⟨7 + 1800, "insufficient_quota"⟩ :=
  cooldown_gate_amended ⟨100, ""⟩ 50 .timeout ⟨3, ""⟩ 7 (by norm_num) (by norm_num)

/-- C2 (counterexample): a lesson request with a lesson already pending is
refused, but the session is not left entirely unchanged — `lesson_command`
clears `assistant_mode` (and re-syncs `level`) before the pending check. -/
theorem lesson_gate_mutates_on_refusal :
    (lesson_command_gate pending_session).2 = .refused_pending ∧
    (lesson_command_gate pending_session).1 ≠ pending_session := by decide

/-- C2 (amended): with a lesson pending, a lesson request is refused, and
the refused request leaves every field of the session unchanged except
that `assistant_mode` is cleared and `level` is re-synced from
`ai_lessons_completed` by the 25/50/75 thresholds. -/
theorem lesson_gate_refusal (s : UserSession) (hp : s.pending_lesson.isSome = true) :
    (lesson_command_gate s).2 = .refused_pending ∧
    (lesson_command_gate s).1 =
      { s with
          assistant_mode := false
          level :=
            if 75 ≤ s.ai_lessons_completed then "professional"
            else if 50 ≤ s.ai_lessons_completed then "advanced"
            else if 25 ≤ s.ai_lessons_completed then "intermediate"
            else "beginner" } := by
  have hsync : sync_ai_curriculum_level {s with assistant_mode := false} =
      { s with
          assistant_mode := false
          level :=
            if 75 ≤ s.ai_lessons_completed then "professional"
            else if 50 ≤ s.ai_lessons_completed then "advanced"
            else if 25 ≤ s.ai_lessons_completed then "intermediate"
            else "beginner" } := by
    unfold sync_ai_curriculum_level
    split_ifs <;> rfl
  simp only [lesson_command_gate]
  rw [hsync]
  simp [hp]

/-- C2 (witness). -/
theorem lesson_gate_refusal_witness :
    (lesson_command_gate pending_session).2 = .refused_pending ∧
    (lesson_command_gate pending_session).1 =
      { pending_session with
          assistant_mode := false
          level :=
            if 75 ≤ pending_session.ai_lessons_completed then "professional"
            else if 50 ≤ pending_session.ai_lessons_completed then "advanced"
            else if 25 ≤ pending_session.ai_lessons_completed then "intermediate"
            else "beginner" } :=
  lesson_gate_refusal pending_session (by decide)

/-- C10: sessions whose access value is one of the two modelled values
(`free`/`premium`, the only values the admin setter accepts and the
default) are always observed with access `free`: `_get_session` downgrades
`premium` to `free` on every event, and `_set_access_value` maps a
`premium` request to `free`, so no observed session retains premium
access. -/
theorem observed_access_always_free (s : UserSession)
    (h : s.access = "free" ∨ s.access = "premium") :
    (get_session_normalize s).access = "free" ∧
    ∀ a : String, ((set_access_value (get_session_normalize s) a).1).access = "free" := by
  have hfree : (get_session_normalize s).access = "free" := by
    rcases h with h | h <;> simp [get_session_normalize, h]
  refine ⟨hfree, fun a => ?_⟩
  unfold set_access_value
  split_ifs with h1 h2
  · rfl
  · have ha : a = "free" := by
      rcases h1 with h | h
      · exact h
      · exact absurd h h2
    simp [ha]
  · exact hfree

/-- C10 (witness). -/
theorem observed_access_always_free_witness :
    (get_session_normalize {base_session with access := "premium"}).access = "free" ∧
    ∀ a : String,
      ((set_access_value (get_session_normalize {base_session with access := "premium"}) a).1).access
        = "free" :=
  observed_access_always_free {base_session with access := "premium"} (by decide)

/-- Helper: membership survives `dropWhile`. -/
theorem mem_of_mem_dropWhile {p : Char → Bool} :
    ∀ {l : List Char} {x : Char}, x ∈ l.dropWhile p → x ∈ l := by
  intro l
  induction l with
  | nil => intro x h; simp [List.dropWhile] at h
  | cons a t ih =>
      intro x h
      simp only [List.dropWhile] at h
      split at h
      · exact List.mem_cons_of_mem a (ih h)
      · exact h

/-- Helper: membership survives stripping. -/
theorem mem_of_mem_stripChars {x : Char} {l : List Char} (h : x ∈ stripChars l) : x ∈ l := by
  unfold stripChars at h
  rw [List.mem_reverse] at h
  have h1 := mem_of_mem_dropWhile h
  rw [List.mem_reverse] at h1
  exact mem_of_mem_dropWhile h1

/-- Helper: `find` misses characters that do not occur. -/
theorem findChar_eq_none_of_not_mem (c : Char) :
    ∀ (l : List Char), c ∉ l → findChar l c = none := by
  intro l
  induction l with
  | nil => intro _; rfl
  | cons a t ih =>
      intro h
      have hne : ¬(a = c) := fun hac => h (by simp [hac])
      have h2 := ih (fun hm => h (List.mem_cons_of_mem a hm))
      rw [findChar, if_neg hne, h2]

/-- Helper: no left delimiter, no span. -/
theorem delimitedSpan_eq_none {l : List Char} {lc rc : Char}
    (h : findChar l lc = none) : delimitedSpan l lc rc = none := by
  unfold delimitedSpan
  rw [h]

/-- Helper: the head is a member. -/
theorem head?_mem {l : List Char} {c : Char} (h : l.head? = some c) : c ∈ l := by
  cases l with
  | nil => simp at h
  | cons a t =>
      simp only [List.head?_cons, Option.some.injEq] at h
      simp [h]

/-- C9 (counterexample): `"x [1] y"` contains no brace at all, yet
`_extract_json_block` returns `"[1]"` (the bracket-span fallback), not the
empty object the claim requires for every brace-free input. -/
theorem extract_json_block_bracket_counterexample :
    lbraceChar ∉ "x [1] y".toList ∧ rbraceChar ∉ "x [1] y".toList ∧
    extract_json_block "x [1] y" = "[1]" ∧
    "[1]" ≠ String.mk [lbraceChar, rbraceChar] := by decide

/-- C9 (amended): on `"noise {"a":1} trailing"` the extractor returns
exactly `{"a":1}`, and on every input containing neither an opening brace
nor an opening bracket it returns the empty object `{}` (the forgiving
rule with the bracket-span fallback included). -/
theorem extract_json_block_amended (s : String)
    (hbrace : lbraceChar ∉ s.toList) (hbrack : lbrackChar ∉ s.toList) :
    extract_json_block "noise \x7b\"a\":1\x7d trailing" = "\x7b\"a\":1\x7d" ∧
    extract_json_block s = String.mk [lbraceChar, rbraceChar] := by
  refine ⟨by decide, ?_⟩
  have hb : lbraceChar ∉ stripChars s.toList := fun hm => hbrace (mem_of_mem_stripChars hm)
  have hk : lbrackChar ∉ stripChars s.toList := fun hm => hbrack (mem_of_mem_stripChars hm)
  have hf1 : findChar (stripChars s.toList) lbraceChar = none :=
    findChar_eq_none_of_not_mem _ _ hb
  have hf2 : findChar (stripChars s.toList) lbrackChar = none :=
    findChar_eq_none_of_not_mem _ _ hk
  unfold extract_json_block
  rw [if_neg, if_neg]
  · rw [delimitedSpan_eq_none hf1, delimitedSpan_eq_none hf2]
  · rintro ⟨hh, -⟩
    exact hk (head?_mem hh)
  · rintro ⟨hh, -⟩
    exact hb (head?_mem hh)

/-- C9 (witness). -/
theorem extract_json_block_amended_witness :
    extract_json_block "noise \x7b\"a\":1\x7d trailing" = "\x7b\"a\":1\x7d" ∧
    extract_json_block "no delimiters here" = String.mk [lbraceChar, rbraceChar] :=
  extract_json_block_amended "no delimiters here" (by decide) (by decide)

/-- C7: at every stage of the simulation wizard, an input the handler
rejects (non-numeric, wrong-side stop or target, out-of-range risk
percent, unrecognised direction) leaves the `SimulationState` completely
unchanged, so the same stage is re-prompted with nothing lost. -/
theorem simulation_rejection_preserves_state (state : SimulationState) (input : SimInput)
    (h : (handle_simulation_answer state input).2 = .rejected) :
    (handle_simulation_answer state input).1 = state := by
  unfold handle_simulation_answer set_simulation_direction at h ⊢
  repeat' split
  all_goals first
    | rfl
    | (exfalso; simp_all)

/-- C7 (witness): a non-numeric stop-loss answer is rejected and the state
survives unchanged. -/
theorem simulation_rejection_witness :
    (handle_simulation_answer stop_stage_sim_state ⟨false, false, none⟩).2 = .rejected ∧
    (handle_simulation_answer stop_stage_sim_state ⟨false, false, none⟩).1 =
      stop_stage_sim_state :=
  ⟨by decide,
   simulation_rejection_preserves_state stop_stage_sim_state ⟨false, false, none⟩ (by decide)⟩

/-- Helper: the three-way `rr` classification of
`_build_simulation_feedback` as interval conditions. -/
theorem rr_quality_iff (rr : ℚ) :
    ((if rr < 3 / 2 then RRQuality.poor
      else if rr < 2 then RRQuality.acceptable else RRQuality.strong) = .poor ↔ rr < 3 / 2) ∧
    ((if rr < 3 / 2 then RRQuality.poor
      else if rr < 2 then RRQuality.acceptable else RRQuality.strong) = .acceptable ↔
        3 / 2 ≤ rr ∧ rr < 2) ∧
    ((if rr < 3 / 2 then RRQuality.poor
      else if rr < 2 then RRQuality.acceptable else RRQuality.strong) = .strong ↔ 2 ≤ rr) := by
  split_ifs with h1 h2 <;> refine ⟨?_, ?_, ?_⟩ <;> simp_all <;> linarith

/-- C6: completing stage 4 with entry `e`, stop `s`, take-profit `t` and
risk percent `r` computes `riskDistance = |e - s|`,
`rewardDistance = |t - e|`, `rr = rewardDistance / riskDistance` (0 when
the risk distance is 0), classifies `rr < 1.5` as poor,
`1.5 ≤ rr < 2` as acceptable, `rr ≥ 2` as strong, flags `r > 2` as
oversized, and flags a long stop above support / a short stop below
resistance as structurally weak; in particular entry 100, long, stop 95,
target 110 gives `rr = 2`, classified strong, and `r = 3` is flagged
oversized. -/
theorem simulation_feedback_classification
    (state : SimulationState) (risk_percent : ℚ) (d : String) (stop tp : ℚ)
    (hdir : state.direction = some d) (hstop : state.stop_loss = some stop)
    (htp : state.take_profit = some tp) :
    (∃ fb, build_simulation_feedback state risk_percent = some fb ∧
      fb.risk_distance = |state.entry - stop| ∧
      fb.reward_distance = |tp - state.entry| ∧
      (fb.risk_distance = 0 → fb.rr = 0) ∧
      (fb.risk_distance ≠ 0 → fb.rr = fb.reward_distance / fb.risk_distance) ∧
      (fb.quality = .poor ↔ fb.rr < 3 / 2) ∧
      (fb.quality = .acceptable ↔ 3 / 2 ≤ fb.rr ∧ fb.rr < 2) ∧
      (fb.quality = .strong ↔ 2 ≤ fb.rr) ∧
      (fb.oversized = true ↔ 2 < risk_percent) ∧
      (fb.weak_stop_long = true ↔ d = "long" ∧ state.support < stop) ∧
      (fb.weak_stop_short = true ↔ d = "short" ∧ stop < state.resistance)) ∧
    build_simulation_feedback sample_sim_state 3 =
      some ⟨5, 10, 2, .strong, true, false, false⟩ := by
  constructor
  · obtain ⟨sym, e, sup, res, ctx, stg, dir0, sl0, tp0⟩ := state
    simp only at hdir hstop htp
    subst hdir hstop htp
    simp only [build_simulation_feedback]
    refine ⟨_, rfl, rfl, rfl, ?_, ?_, ?_, ?_, ?_, ?_, ?_, ?_⟩
    · intro h
      simp only at h ⊢
      rw [if_pos h]
    · intro h
      simp only at h ⊢
      rw [if_neg h]
    · exact (rr_quality_iff _).1
    · exact (rr_quality_iff _).2.1
    · exact (rr_quality_iff _).2.2
    · exact decide_eq_true_iff
    · exact decide_eq_true_iff
    · exact decide_eq_true_iff
  · simp only [build_simulation_feedback, sample_sim_state]
    norm_num
    all_goals decide

/-- C6 (witness). -/
theorem simulation_feedback_classification_witness :
    (∃ fb, build_simulation_feedback sample_sim_state 3 = some fb ∧
      fb.risk_distance = |sample_sim_state.entry - 95| ∧
      fb.reward_distance = |110 - sample_sim_state.entry| ∧
      (fb.risk_distance = 0 → fb.rr = 0) ∧
      (fb.risk_distance ≠ 0 → fb.rr = fb.reward_distance / fb.risk_distance) ∧
      (fb.quality = .poor ↔ fb.rr < 3 / 2) ∧
      (fb.quality = .acceptable ↔ 3 / 2 ≤ fb.rr ∧ fb.rr < 2) ∧
      (fb.quality = .strong ↔ 2 ≤ fb.rr) ∧
      (fb.oversized = true ↔ 2 < (3 : ℚ)) ∧
      (fb.weak_stop_long = true ↔ "long" = "long" ∧ sample_sim_state.support < 95) ∧
      (fb.weak_stop_short = true ↔ "long" = "short" ∧ (95 : ℚ) < sample_sim_state.resistance)) ∧
    build_simulation_feedback sample_sim_state 3 =
      some ⟨5, 10, 2, .strong, true, false, false⟩ :=
  simulation_feedback_classification sample_sim_state 3 "long" 95 110 rfl rfl rfl

/-- C8 (counterexample): the reply has at least 8 words and, under the
claim's case-insensitive rule, 3 of the 4 expected keywords occur, which
the claim classifies as strong; the code lowercases only the reply, so the
uppercase keyword `"RISK"` never matches and the code scores the reply
adequate instead. -/
theorem challenge_keyword_case_counterexample :
    8 ≤ word_count "my risk and entry and exit plan is ready" ∧
    ci_hit_count_spec ["RISK", "entry", "exit", "bias"]
      "my risk and entry and exit plan is ready" = 3 ∧
    (daily_challenge_step challenge_session "my risk and entry and exit plan is ready").2 =
      .scored .adequate := by decide

/-- C8 (amended): for a daily-challenge reply with at least 8 words, the
evaluator counts keywords occurring verbatim as substrings of the
lowercased reply (case-insensitive in the reply only): at least 3 hits is
strong, exactly 2 adequate, anything else generic-improve; in every scored
case the challenge state is cleared and the challenge counter is
incremented, all other session fields untouched. -/
theorem daily_challenge_scoring (s : UserSession) (ch : DailyChallengeState) (text : String)
    (hch : s.daily_challenge_state = some ch) (hlen : 8 ≤ word_count text) :
    (daily_challenge_step s text).2 =
      .scored
        (if 3 ≤ hit_count ch.expected_keywords (text.toList.map Char.toLower) then .strong
         else if hit_count ch.expected_keywords (text.toList.map Char.toLower) = 2 then .adequate
         else .generic) ∧
    (daily_challenge_step s text).1 =
      { s with
          ai_challenges_completed := s.ai_challenges_completed + 1
          daily_challenge_state := none } := by
  simp only [daily_challenge_step, hch]
  rw [if_neg (by omega)]
  exact ⟨rfl, rfl⟩

/-- C8 (witness). -/
theorem daily_challenge_scoring_witness :
    (daily_challenge_step challenge_session "my risk and entry and exit plan is ready").2 =
      .scored
        (if 3 ≤ hit_count ["RISK", "entry", "exit", "bias"]
              ("my risk and entry and exit plan is ready".toList.map Char.toLower) then .strong
         else if hit_count ["RISK", "entry", "exit", "bias"]
              ("my risk and entry and exit plan is ready".toList.map Char.toLower) = 2 then
           .adequate
         else .generic) ∧
    (daily_challenge_step challenge_session "my risk and entry and exit plan is ready").1 =
      { challenge_session with
          ai_challenges_completed := challenge_session.ai_challenges_completed + 1
          daily_challenge_state := none } :=
  daily_challenge_scoring challenge_session ⟨"p", ["RISK", "entry", "exit", "bias"]⟩
    "my risk and entry and exit plan is ready" (by decide) (by decide)

/-- Helper: the built-in fallback quiz bank is never empty. -/
theorem fallback_quiz_ne_nil (language : String) : fallback_quiz language ≠ [] := by
  unfold fallback_quiz
  split <;> simp

/-- Helper: each padding iteration appends exactly one question. -/
theorem pad_quiz_loop_length (seed : List QuizQuestion) (hs : seed ≠ []) :
    ∀ (n : ℕ) (acc : List QuizQuestion) (idx : ℕ),
      (pad_quiz_loop seed n acc idx).length = acc.length + n := by
  intro n
  induction n with
  | zero => intro acc idx; rfl
  | succ m ih =>
      intro acc idx
      have hpos : 0 < seed.length := List.length_pos.mpr hs
      have hlt : idx % seed.length < seed.length := Nat.mod_lt _ hpos
      rw [pad_quiz_loop]
      split
      · next hnone =>
          exfalso
          rw [List.get?_eq_none] at hnone
          omega
      · next b hb =>
          rw [ih]
          simp
          omega

/-- Helper: padding never rewrites the already-accumulated prefix. -/
theorem pad_quiz_loop_front (seed : List QuizQuestion) :
    ∀ (n : ℕ) (acc : List QuizQuestion) (idx k : ℕ), k < acc.length →
      (pad_quiz_loop seed n acc idx).get? k = acc.get? k := by
  intro n
  induction n with
  | zero => intro acc idx k hk; rfl
  | succ m ih =>
      intro acc idx k hk
      rw [pad_quiz_loop]
      split
      · rfl
      · next b hb =>
          rw [ih _ _ k (by simp; omega)]
          exact List.get?_append hk

/-- Helper: the `j`-th padded question cycles the seed bank and carries
the 1-based position as a prompt suffix. -/
theorem pad_quiz_loop_get (seed : List QuizQuestion) (hs : seed ≠ []) :
    ∀ (n : ℕ) (acc : List QuizQuestion) (idx j : ℕ), j < n →
      (pad_quiz_loop seed n acc idx).get? (acc.length + j) =
        some
          { prompt := (seed.getD ((idx + j) % seed.length) default).prompt ++
              " (" ++ toString (acc.length + j + 1) ++ ")"
            options := (seed.getD ((idx + j) % seed.length) default).options
            answer := (seed.getD ((idx + j) % seed.length) default).answer
            explanation := (seed.getD ((idx + j) % seed.length) default).explanation } := by
  intro n
  induction n with
  | zero => intro acc idx j hj; exact absurd hj (Nat.not_lt_zero j)
  | succ m ih =>
      intro acc idx j hj
      have hpos : 0 < seed.length := List.length_pos.mpr hs
      have hlt : idx % seed.length < seed.length := Nat.mod_lt _ hpos
      rw [pad_quiz_loop]
      split
      · next hnone =>
          exfalso
          rw [List.get?_eq_none] at hnone
          omega
      · next b hb =>
          cases j with
          | zero =>
              simp only [Nat.add_zero]
              rw [pad_quiz_loop_front seed m _ (idx + 1) acc.length (by simp)]
              rw [List.get?_append_right (le_refl acc.length)]
              have hb2 : seed[idx % seed.length]? = some b := by
                simpa [← List.get?_eq_getElem?] using hb
              simp [hb2]
          | succ j2 =>
              have hstep := ih (acc ++
                [{ prompt := b.prompt ++ " (" ++ toString (acc.length + 1) ++ ")"
                   options := b.options
                   answer := b.answer
                   explanation := b.explanation }]) (idx + 1) j2 (by omega)
              have h1 : (acc ++ [({ prompt := b.prompt ++ " (" ++ toString (acc.length + 1) ++ ")"
                                    options := b.options
                                    answer := b.answer
                                    explanation := b.explanation } : QuizQuestion)]).length + j2
                  = acc.length + (j2 + 1) := by
                simp
                omega
              have h2 : idx + 1 + j2 = idx + (j2 + 1) := by omega
              rw [h1, h2] at hstep
              exact hstep

/-- C4: for every possible set of upstream chunk results (including all
chunks failing) the quiz pack requested with `quiz_count = 50` has exactly
50 questions, and every question beyond the merged upstream prefix is the
cycled built-in fallback question with its 1-based position appended to
the prompt. -/
theorem quiz_pack_exact_count (f : ℕ → List QuizQuestion) (language : String) :
    (generate_lesson_quiz_pack f 50 language).length = 50 ∧
    ∀ j : ℕ, (merged_chunks f 50).length ≤ j → j < 50 →
      (generate_lesson_quiz_pack f 50 language).get? j =
        some
          { prompt := ((fallback_quiz language).getD
                ((j - (merged_chunks f 50).length) % (fallback_quiz language).length)
                default).prompt ++ " (" ++ toString (j + 1) ++ ")"
            options := ((fallback_quiz language).getD
                ((j - (merged_chunks f 50).length) % (fallback_quiz language).length)
                default).options
            answer := ((fallback_quiz language).getD
                ((j - (merged_chunks f 50).length) % (fallback_quiz language).length)
                default).answer
            explanation := ((fallback_quiz language).getD
                ((j - (merged_chunks f 50).length) % (fallback_quiz language).length)
                default).explanation } := by
  have hs := fallback_quiz_ne_nil language
  unfold generate_lesson_quiz_pack ensure_quiz_count
  rw [if_neg (by norm_num)]
  rw [if_neg (by norm_num)]
  by_cases hle : 50 ≤ (merged_chunks f 50).length
  · rw [if_pos hle]
    refine ⟨?_, ?_⟩
    · rw [List.length_take]
      omega
    · intro j hj1 hj2
      omega
  · rw [if_neg hle]
    refine ⟨?_, ?_⟩
    · rw [pad_quiz_loop_length _ hs]
      omega
    · intro j hj1 hj2
      have hj0 : j - (merged_chunks f 50).length < 50 - (merged_chunks f 50).length := by
        omega
      have hstep := pad_quiz_loop_get _ hs (50 - (merged_chunks f 50).length)
        (merged_chunks f 50) 0 (j - (merged_chunks f 50).length) hj0
      rw [show (merged_chunks f 50).length + (j - (merged_chunks f 50).length) = j by omega]
        at hstep
      rw [show 0 + (j - (merged_chunks f 50).length) = j - (merged_chunks f 50).length
        by omega] at hstep
      exact hstep

/-- C4 (witness): with every chunk failing, the pack still has 50
questions and position 0 is the first padded fallback question. -/
theorem quiz_pack_exact_count_witness :
    (generate_lesson_quiz_pack (fun _ => []) 50 "en").length = 50 ∧
    (generate_lesson_quiz_pack (fun _ => []) 50 "en").get? 0 =
      some
        { prompt := ((fallback_quiz "en").getD
              ((0 - (merged_chunks (fun _ => []) 50).length) % (fallback_quiz "en").length)
              default).prompt ++ " (" ++ toString (0 + 1) ++ ")"
          options := ((fallback_quiz "en").getD
              ((0 - (merged_chunks (fun _ => []) 50).length) % (fallback_quiz "en").length)
              default).options
          answer := ((fallback_quiz "en").getD
              ((0 - (merged_chunks (fun _ => []) 50).length) % (fallback_quiz "en").length)
              default).answer
          explanation := ((fallback_quiz "en").getD
              ((0 - (merged_chunks (fun _ => []) 50).length) % (fallback_quiz "en").length)
              default).explanation } :=
  ⟨(quiz_pack_exact_count (fun _ => []) "en").1,
   (quiz_pack_exact_count (fun _ => []) "en").2 0 (by decide) (by decide)⟩

/-- Helper: the first loop never keeps a variant whose signature is in
the user's history. -/
theorem phase1_fresh (o : QuizOracle) (lesson : Lesson) (history : Finset String) (target : ℕ) :
    ∀ (fuel : ℕ) (s : GenLoopState), (∀ p ∈ s.generated, p.2 ∉ history) →
      ∀ p ∈ (phase1 o lesson history target fuel s).generated, p.2 ∉ history := by
  intro fuel
  induction fuel with
  | zero => intro s hs; exact hs
  | succ m ih =>
      intro s hs
      rw [phase1]
      dsimp only
      split
      · exact hs
      · split
        · exact ih _ hs
        · split
          · exact ih _ hs
          · next hnot =>
              apply ih
              intro q hq
              rcases List.mem_append.mp hq with h1 | h2
              · exact hs q h1
              · have hq2 : q = build_variant_question o s.attempts
                    (quiz_attempt_base o lesson s.attempts) lesson := by
                  simpa using h2
                subst hq2
                intro hmem
                exact hnot (Or.inl hmem)

/-- Helper: the first loop only appends, so an empty result means an
empty input accumulator. -/
theorem phase1_nil (o : QuizOracle) (lesson : Lesson) (history : Finset String) (target : ℕ) :
    ∀ (fuel : ℕ) (s : GenLoopState),
      (phase1 o lesson history target fuel s).generated = [] → s.generated = [] := by
  intro fuel
  induction fuel with
  | zero => intro s h; exact h
  | succ m ih =>
      intro s h
      rw [phase1] at h
      dsimp only at h
      split at h
      · exact h
      · split at h
        · have h3 := ih _ h
          exact h3
        · split at h
          · have h3 := ih _ h
            exact h3
          · have h3 := ih _ h
            simp at h3

/-- Helper: the second loop only appends. -/
theorem phase2_nil (o : QuizOracle) (lesson : Lesson) (target : ℕ) :
    ∀ (fuel : ℕ) (s : GenLoopState),
      (phase2 o lesson target fuel s).generated = [] → s.generated = [] := by
  intro fuel
  induction fuel with
  | zero => intro s h; exact h
  | succ m ih =>
      intro s h
      rw [phase2] at h
      dsimp only at h
      split at h
      · exact h
      · split at h
        · have h3 := ih _ h
          exact h3
        · have h3 := ih _ h
          simp at h3

/-- Helper: a positive-length prefix of a non-empty list is non-empty. -/
theorem take_ne_nil2 {α : Type} {l : List α} {n : ℕ} (hl : l ≠ []) (hn : n ≠ 0) :
    l.take n ≠ [] := by
  cases l with
  | nil => exact absurd rfl hl
  | cons a t =>
      cases n with
      | zero => exact absurd rfl hn
      | succ m => simp

/-- Helper: after the final fallback check the variant list is non-empty
whenever the lesson bank is. -/
theorem brq_final_ne_nil (lesson : Lesson) (o : QuizOracle) (s2 : GenLoopState)
    (hq : lesson.quiz ≠ []) : (brq_final lesson o s2).1 ≠ [] := by
  unfold brq_final
  split
  · next hnil =>
      simp only
      intro hmap
      rw [List.map_eq_nil] at hmap
      unfold brq_fallback at hmap
      have hlen := congrArg List.length hmap
      rw [List.length_mapIdx] at hlen
      simp at hlen
      exact hq hlen
  · next hnn => simpa using hnn


/-- C3: for every lesson with a non-empty quiz bank, every prior history
and every randomness oracle, the generator (with its default sizes 2..3)
returns a non-empty list; when the 300-attempt loop reached its target
(no exhaustion) no returned variant's signature was already recorded in
the user's history and the history only grows by the emitted signatures;
when the attempt budget was exhausted the lesson's history is cleared and
replaced by the emitted signatures — and the function is total, so it
never loops forever. -/
theorem quiz_variant_freshness (lesson : Lesson) (history : Finset String) (o : QuizOracle)
    (hq : lesson.quiz ≠ []) :
    (build_random_quiz_for_lesson lesson history o 2 3).questions ≠ [] ∧
    ((build_random_quiz_for_lesson lesson history o 2 3).cleared = false →
      (∀ p ∈ (build_random_quiz_for_lesson lesson history o 2 3).questions, p.2 ∉ history) ∧
      (build_random_quiz_for_lesson lesson history o 2 3).new_history =
        history ∪ (build_random_quiz_for_lesson lesson history o 2 3).emitted_signatures) ∧
    ((build_random_quiz_for_lesson lesson history o 2 3).cleared = true →
      (build_random_quiz_for_lesson lesson history o 2 3).new_history =
        (build_random_quiz_for_lesson lesson history o 2 3).emitted_signatures) := by
  have htar : 2 ≤ brq_target o 2 3 := Nat.le_add_right 2 _
  have hne := brq_final_ne_nil lesson o (brq_s2 lesson history o 2 3) hq
  unfold build_random_quiz_for_lesson
  rw [if_neg hq]
  dsimp only
  refine ⟨?_, ?_, ?_⟩
  · exact take_ne_nil2 hne (by omega)
  · intro hcl
    have hnlt : ¬ (brq_s1 lesson history o 2 3).generated.length < brq_target o 2 3 :=
      of_decide_eq_false hcl
    have hs2 : brq_s2 lesson history o 2 3 = brq_s1 lesson history o 2 3 := by
      unfold brq_s2
      dsimp only
      rw [if_neg hnlt]
    have hgen : (brq_s1 lesson history o 2 3).generated ≠ [] := by
      intro h0
      rw [h0] at hnlt
      simp at hnlt
      omega
    constructor
    · intro p hp
      have hp3 := List.take_subset _ _ hp
      rw [hs2] at hp3
      unfold brq_final at hp3
      rw [if_neg hgen] at hp3
      exact phase1_fresh o lesson history (brq_target o 2 3) 300 ⟨[], ∅, ∅, 0⟩
        (by simp) p hp3
    · rw [if_neg hnlt]
  · intro hcl
    have hlt := of_decide_eq_true hcl
    rw [if_pos hlt, Finset.empty_union]


/-- C3 (witness). -/
theorem quiz_variant_freshness_witness :
    (build_random_quiz_for_lesson sample_bank_lesson ∅ sample_oracle 2 3).questions ≠ [] ∧
    ((build_random_quiz_for_lesson sample_bank_lesson ∅ sample_oracle 2 3).cleared = false →
      (∀ p ∈ (build_random_quiz_for_lesson sample_bank_lesson ∅ sample_oracle 2 3).questions,
        p.2 ∉ (∅ : Finset String)) ∧
      (build_random_quiz_for_lesson sample_bank_lesson ∅ sample_oracle 2 3).new_history =
        (∅ : Finset String) ∪
          (build_random_quiz_for_lesson sample_bank_lesson ∅ sample_oracle 2 3).emitted_signatures) ∧
    ((build_random_quiz_for_lesson sample_bank_lesson ∅ sample_oracle 2 3).cleared = true →
      (build_random_quiz_for_lesson sample_bank_lesson ∅ sample_oracle 2 3).new_history =
        (build_random_quiz_for_lesson sample_bank_lesson ∅ sample_oracle 2 3).emitted_signatures) :=
  quiz_variant_freshness sample_bank_lesson ∅ sample_oracle (by decide)

end SinTrade
